import Mathlib

/-!
# A shallow embedding of the chip8 emulator core

This file embeds the core of the `chip8` emulator — `src/emulator/cpu.rs`,
`src/emulator/opcode.rs` and `src/emulator/mod.rs` — as executable Lean
definitions and proves properties of the fetch–decode–execute loop, the
opcode decoder, the builtin disassembler and the program loader.

Modelling conventions:
* Rust machine integers become `Nat` with explicit wrap-around (`% 256` for
  `u8` arithmetic, `% 65536` for `u16` arithmetic) where the source relies
  on release-profile wrapping.
* Rust fixed-size arrays become lists; an array index that may be out of
  bounds is modelled with `List.get?` / a checked write, and the panic a
  Rust out-of-bounds index raises is an explicit `Outcome.crash`.
* `unimplemented!()` placeholders also abort (`Outcome.crash`), while
  `Cpu::unknown` — which prints the opcode and calls `process::exit(1)` —
  is the distinct `Outcome.unknownOp`.
* `rand::rng().random_range(0..255)` is modelled by an oracle argument `r`
  reduced mod 255 (the Rust range `0..255` is half-open).
* `println!` tracing has no observable effect on the machine state and is
  dropped.
-/

set_option maxRecDepth 100000

namespace Chip8

/-- CHIP-8 RAM size (`RAM_SIZE`, cpu.rs line 10). -/
def RAM_SIZE : Nat := 4096

/-- CHIP-8 stack size (`STACK_SIZE`, cpu.rs line 13). -/
def STACK_SIZE : Nat := 16

/-- General-purpose register count (`REGISTER_COUNT`, cpu.rs line 16). -/
def REGISTER_COUNT : Nat := 16

/-- Program start address (`START_ADDR`, cpu.rs line 19). -/
def START_ADDR : Nat := 0x200

/-- CHIP-8 opcode value object (`OpCode`, opcode.rs lines 9-24).  The Rust
field `class` is renamed `cls` because `class` is a Lean keyword. -/
structure OpCode where
  raw : Nat
  cls : Nat
  addr : Nat
  reg_x : Nat
  reg_y : Nat
  byte : Nat
  nibble : Nat
deriving DecidableEq, Repr

/-- `OpCode::new` (opcode.rs lines 34-51): pure bit-field extraction from
the raw 16-bit word. -/
def OpCode.new (raw : Nat) : OpCode where
  raw := raw
  addr := raw &&& 0x0FFF
  cls := (raw &&& 0xF000) >>> 12
  reg_x := (raw &&& 0x0F00) >>> 8
  reg_y := (raw &&& 0x00F0) >>> 4
  byte := raw &&& 0x00FF
  nibble := raw &&& 0x000F

/-- Emulated CPU state (`Cpu`, cpu.rs lines 22-41).  The Rust struct also
caches the currently executing opcode in a field `opcode`; that field is
only the channel from `fetch` to `execute` inside one loop iteration, so
here the fetched word is passed directly instead of being stored. -/
structure Cpu where
  memory : List Nat
  registers : List Nat
  register_i : Nat
  pc : Nat
  sp : Nat
  stack : List Nat
  dt : Nat
  st : Nat
deriving DecidableEq, Repr

/-- `Cpu::new` (cpu.rs lines 48-66). -/
def Cpu.new : Cpu where
  memory := List.replicate RAM_SIZE 0
  registers := List.replicate REGISTER_COUNT 0
  register_i := 0
  pc := START_ADDR
  sp := 0
  stack := List.replicate STACK_SIZE 0
  dt := 0
  st := 0

/-- Result of dispatching one instruction.  `crash` models a Rust panic
(an `unimplemented!()` placeholder or an out-of-bounds array index);
`unknownOp` models `Cpu::unknown` (cpu.rs lines 132-137), which reports
the opcode and calls `process::exit(1)`. -/
inductive Outcome where
  | ok (s : Cpu)
  | unknownOp (raw : Nat)
  | crash
deriving DecidableEq, Repr

/-- Rust array write `a[i] = v`: `none` models the panic when `i` is out
of bounds. -/
def listSet? (l : List Nat) (i v : Nat) : Option (List Nat) :=
  if i < l.length then some (l.set i v) else none

namespace Cpu

/-- `Cpu::ret` (cpu.rs lines 157-164): when `sp > 0`, decrement `sp`, then
load `pc` from `stack[sp]` at the *decremented* index. -/
def ret (s : Cpu) : Outcome :=
  if 0 < s.sp then
    match s.stack.get? (s.sp - 1) with
    | some a => .ok { s with sp := s.sp - 1, pc := a }
    | none => .crash
  else .ok s

/-- `Cpu::sys` (cpu.rs lines 171-175): ignored by modern interpreters. -/
def sys (s : Cpu) (_addr : Nat) : Outcome := .ok s

/-- `Cpu::jump` (cpu.rs lines 196-198). -/
def jump (s : Cpu) (addr : Nat) : Outcome := .ok { s with pc := addr }

/-- `Cpu::call` (cpu.rs lines 205-209): increment `sp` (a `u8`, hence mod
256), write the current `pc` into `stack[sp]` at the *incremented* index —
a write that panics once the index reaches 16 — then set `pc := addr`. -/
def call (s : Cpu) (addr : Nat) : Outcome :=
  match listSet? s.stack ((s.sp + 1) % 256) s.pc with
  | some st => .ok { s with sp := (s.sp + 1) % 256, stack := st, pc := addr }
  | none => .crash

/-- `Cpu::set_reg_i` (cpu.rs lines 216-218). -/
def set_reg_i (s : Cpu) (addr : Nat) : Outcome :=
  .ok { s with register_i := addr }

/-- `Cpu::jump_by_offset` (cpu.rs lines 225-227): `pc := registers[0] + addr`
as a `u16` addition. -/
def jump_by_offset (s : Cpu) (addr : Nat) : Outcome :=
  match s.registers.get? 0 with
  | some v0 => .ok { s with pc := (v0 + addr) % 65536 }
  | none => .crash

/-- `Cpu::skip_eq` (cpu.rs lines 251-255): `pc += 2` (u16) when
`registers[reg] = byte`. -/
def skip_eq (s : Cpu) (reg byte : Nat) : Outcome :=
  match s.registers.get? reg with
  | some v => .ok (if v = byte then { s with pc := (s.pc + 2) % 65536 } else s)
  | none => .crash

/-- `Cpu::skip_ne` (cpu.rs lines 263-267). -/
def skip_ne (s : Cpu) (reg byte : Nat) : Outcome :=
  match s.registers.get? reg with
  | some v => .ok (if v ≠ byte then { s with pc := (s.pc + 2) % 65536 } else s)
  | none => .crash

/-- `Cpu::set_reg_byte` (cpu.rs lines 275-277). -/
def set_reg_byte (s : Cpu) (reg byte : Nat) : Outcome :=
  match listSet? s.registers reg byte with
  | some rs => .ok { s with registers := rs }
  | none => .crash

/-- `Cpu::add_reg_byte` (cpu.rs lines 285-287): `registers[reg] += byte` on
`u8`, wrapping mod 256 (release-profile overflow semantics). -/
def add_reg_byte (s : Cpu) (reg byte : Nat) : Outcome :=
  match s.registers.get? reg with
  | some v =>
    match listSet? s.registers reg ((v + byte) % 256) with
    | some rs => .ok { s with registers := rs }
    | none => .crash
  | none => .crash

/-- `Cpu::rnd` (cpu.rs lines 295-299): a random byte drawn from `0..255`
(half-open), AND-ed with `byte`.  The draw is the oracle argument `r`,
reduced mod 255; the Rust local `random_byte` is inlined. -/
def rnd (s : Cpu) (reg byte r : Nat) : Outcome :=
  match listSet? s.registers reg ((r % 255) &&& byte) with
  | some rs => .ok { s with registers := rs }
  | none => .crash

/-- `Cpu::clear_display` (cpu.rs lines 151-153): `unimplemented!()`. -/
def clear_display (_s : Cpu) : Outcome := .crash

/-- `Cpu::skip_if_key_pressed` (cpu.rs lines 317-319): `unimplemented!()`. -/
def skip_if_key_pressed (_s : Cpu) (_reg : Nat) : Outcome := .crash

/-- `Cpu::skip_if_key_not_pressed` (cpu.rs lines 326-328):
`unimplemented!()`. -/
def skip_if_key_not_pressed (_s : Cpu) (_reg : Nat) : Outcome := .crash

/-- `Cpu::execute_0xxx` (cpu.rs lines 141-147).  The Rust `match` over
integer literals is written as an equality chain. -/
def execute_0xxx (s : Cpu) (op : OpCode) : Outcome :=
  if op.raw = 0x00E0 then clear_display s
  else if op.raw = 0x00EE then ret s
  else sys s op.addr

/-- `Cpu::execute_0nnn` (cpu.rs lines 179-189). -/
def execute_0nnn (s : Cpu) (op : OpCode) : Outcome :=
  if op.cls = 0x1 then jump s op.addr
  else if op.cls = 0x2 then call s op.addr
  else if op.cls = 0xA then set_reg_i s op.addr
  else if op.cls = 0xB then jump_by_offset s op.addr
  else .unknownOp op.raw

/-- `Cpu::execute_xkk` (cpu.rs lines 231-243). -/
def execute_xkk (s : Cpu) (op : OpCode) (r : Nat) : Outcome :=
  if op.cls = 0x3 then skip_eq s op.reg_x op.byte
  else if op.cls = 0x4 then skip_ne s op.reg_x op.byte
  else if op.cls = 0x6 then set_reg_byte s op.reg_x op.byte
  else if op.cls = 0x7 then add_reg_byte s op.reg_x op.byte
  else if op.cls = 0xC then rnd s op.reg_x op.byte r
  else .unknownOp op.raw

/-- `Cpu::execute_ex` (cpu.rs lines 302-310). -/
def execute_ex (s : Cpu) (op : OpCode) : Outcome :=
  if op.byte = 0x9E then skip_if_key_pressed s op.reg_x
  else if op.byte = 0xA1 then skip_if_key_not_pressed s op.reg_x
  else .unknownOp op.raw

/-- `Cpu::execute` (cpu.rs lines 101-125): dispatch on the class nibble.
The `unimplemented!()` arms (classes 5, 8, 9, D, F) crash. -/
def execute (s : Cpu) (op : OpCode) (r : Nat) : Outcome :=
  if op.cls = 0x0 then execute_0xxx s op
  else if op.cls = 0x1 then execute_0nnn s op
  else if op.cls = 0x2 then execute_0nnn s op
  else if op.cls = 0x3 then execute_xkk s op r
  else if op.cls = 0x4 then execute_xkk s op r
  else if op.cls = 0x5 then .crash
  else if op.cls = 0x6 then execute_xkk s op r
  else if op.cls = 0x7 then execute_xkk s op r
  else if op.cls = 0x8 then .crash
  else if op.cls = 0x9 then .crash
  else if op.cls = 0xA then execute_0nnn s op
  else if op.cls = 0xB then execute_0nnn s op
  else if op.cls = 0xC then execute_xkk s op r
  else if op.cls = 0xD then .crash
  else if op.cls = 0xE then execute_ex s op
  else if op.cls = 0xF then .crash
  else .unknownOp op.raw

/-- `Cpu::fetch` (cpu.rs lines 92-97): the big-endian word made of
`memory[pc]` and `memory[pc + 1]`; `none` models the index panic when the
program counter points past the end of memory. -/
def fetch? (s : Cpu) : Option Nat :=
  match s.memory.get? s.pc, s.memory.get? (s.pc + 1) with
  | some hi, some lo => some (256 * hi + lo)
  | _, _ => none

/-- Dispatch the raw word `w` exactly as one iteration of `Cpu::run` does
once it is fetched: `execute`, then the loop's generic `pc += 2` advance
(a `u16` addition).  Note the advance happens *after* `execute` returns
(cpu.rs lines 83-86). -/
def execAdvance (s : Cpu) (w r : Nat) : Outcome :=
  match execute s (OpCode.new w) r with
  | .ok s' => .ok { s' with pc := (s'.pc + 2) % 65536 }
  | o => o

/-- One full iteration of the loop body of `Cpu::run` (cpu.rs lines 82-87):
fetch, execute, generic advance. -/
def stepRun (s : Cpu) (r : Nat) : Outcome :=
  match fetch? s with
  | some w => execAdvance s w r
  | none => .crash

/-- How a call to `Cpu::run` (cpu.rs lines 81-88) ends. -/
inductive RunResult where
  | halted (s : Cpu)
  | unknownOp (raw : Nat)
  | crashed
  | fuelOut (s : Cpu)
deriving DecidableEq, Repr

/-- `Cpu::run` (cpu.rs lines 81-88) with explicit fuel: the `while` loop
exits normally only when `pc = RAM_SIZE`; `rand` supplies the random draw
for each iteration. -/
def runFuel (rand : Nat → Nat) : Nat → Cpu → RunResult
  | 0, s => .fuelOut s
  | fuel + 1, s =>
    if s.pc = RAM_SIZE then .halted s
    else
      match stepRun s (rand fuel) with
      | .ok s' => runFuel rand fuel s'
      | .unknownOp w => .unknownOp w
      | .crash => .crashed

/-- `Cpu::load_program` (cpu.rs lines 72-78): copy the program bytes over
`memory[0x200 .. 0x200 + len]`; `none` models the slice-index panic when
that range end exceeds the memory size. -/
def load_program (s : Cpu) (program_data : List Nat) : Option Cpu :=
  if START_ADDR + program_data.length ≤ s.memory.length then
    some { s with memory :=
      s.memory.take START_ADDR ++ program_data ++
        s.memory.drop (START_ADDR + program_data.length) }
  else none

end Cpu

/-- `Emulator::extract_program` (mod.rs lines 48-71), applied to a byte
buffer already read from disk (file I/O is outside the core): it rejects
buffers of odd byte length and otherwise returns the buffer unchanged. -/
def extract_program (buffer : List Nat) : Except String (List Nat) :=
  if buffer.length % 2 ≠ 0 then
    .error "Buffer should have even byte length"
  else .ok buffer

/-! ## The builtin disassembler (opcode.rs)

The mnemonic strings follow the repository's own unit tests
(opcode.rs lines 286-424): register operands render in decimal, numeric
operands render as fixed-width uppercase hexadecimal. -/

/-- Uppercase hexadecimal digit of `n % 16`. -/
def hexDigit (n : Nat) : Char :=
  let m := n % 16
  if m < 10 then Char.ofNat (48 + m) else Char.ofNat (55 + m)

/-- Two-digit uppercase hexadecimal rendering (`{:02X}`). -/
def hex2 (n : Nat) : String := String.mk [hexDigit (n / 16), hexDigit n]

/-- Three-digit uppercase hexadecimal rendering (`{:03X}`). -/
def hex3 (n : Nat) : String :=
  String.mk [hexDigit (n / 256), hexDigit (n / 16), hexDigit n]

/-- Four-digit uppercase hexadecimal rendering (`{:04X}`). -/
def hex4 (n : Nat) : String :=
  String.mk [hexDigit (n / 4096), hexDigit (n / 256), hexDigit (n / 16), hexDigit n]

namespace OpCode

/-- Rust `OpCode::unknown` (opcode.rs lines 58-60). -/
def unknown (op : OpCode) : String := "UNKNOWN: " ++ hex4 op.raw

/-- Rust `OpCode::decode_0xxx` (opcode.rs lines 66-74). -/
def decode_0xxx (op : OpCode) : String :=
  if op.raw = 0x00E0 then "CLS"
  else if op.raw = 0x00EE then "RET"
  else "SYS " ++ hex3 op.addr

/-- Rust `OpCode::decode_nnn` (opcode.rs lines 80-90). -/
def decode_nnn (op : OpCode) : String :=
  if op.cls = 0x1 then "JP " ++ hex3 op.addr
  else if op.cls = 0x2 then "CALL " ++ hex3 op.addr
  else if op.cls = 0xA then "LD I, " ++ hex3 op.addr
  else if op.cls = 0xB then "JP V0, " ++ hex3 op.addr
  else op.unknown

/-- Rust `OpCode::decode_xkk` (opcode.rs lines 96-108). -/
def decode_xkk (op : OpCode) : String :=
  if op.cls = 0x3 then "SE V" ++ toString op.reg_x ++ ", " ++ hex2 op.byte
  else if op.cls = 0x4 then "SNE V" ++ toString op.reg_x ++ ", " ++ hex2 op.byte
  else if op.cls = 0x6 then "LD V" ++ toString op.reg_x ++ ", " ++ hex2 op.byte
  else if op.cls = 0x7 then "ADD V" ++ toString op.reg_x ++ ", " ++ hex2 op.byte
  else if op.cls = 0xC then "RND V" ++ toString op.reg_x ++ ", " ++ hex2 op.byte
  else op.unknown

/-- Rust `OpCode::decode_xy` (opcode.rs lines 114-143).  The literal braces
of the SHR/SHL renderings are escaped as `\x7b` and `\x7d`. -/
def decode_xy (op : OpCode) : String :=
  if op.cls = 0x5 then
    if op.nibble = 0x0 then "SE V" ++ toString op.reg_x ++ ", V" ++ toString op.reg_y
    else op.unknown
  else if op.cls = 0x8 then
    if op.nibble = 0x0 then "LD V" ++ toString op.reg_x ++ ", V" ++ toString op.reg_y
    else if op.nibble = 0x1 then "OR V" ++ toString op.reg_x ++ ", V" ++ toString op.reg_y
    else if op.nibble = 0x2 then "AND V" ++ toString op.reg_x ++ ", V" ++ toString op.reg_y
    else if op.nibble = 0x3 then "XOR V" ++ toString op.reg_x ++ ", V" ++ toString op.reg_y
    else if op.nibble = 0x4 then "ADD V" ++ toString op.reg_x ++ ", V" ++ toString op.reg_y
    else if op.nibble = 0x5 then "SUB V" ++ toString op.reg_x ++ ", V" ++ toString op.reg_y
    else if op.nibble = 0x6 then "SHR V" ++ toString op.reg_x ++ " \x7b, V" ++ toString op.reg_y ++ "\x7d"
    else if op.nibble = 0x7 then "SUBN V" ++ toString op.reg_x ++ ", V" ++ toString op.reg_y
    else if op.nibble = 0xE then "SHL V" ++ toString op.reg_x ++ " \x7b, V" ++ toString op.reg_y ++ "\x7d"
    else op.unknown
  else if op.cls = 0x9 then
    if op.nibble = 0x0 then "SNE V" ++ toString op.reg_x ++ ", V" ++ toString op.reg_y
    else op.unknown
  else if op.cls = 0xD then
    "DRW V" ++ toString op.reg_x ++ ", V" ++ toString op.reg_y ++ ", " ++ hex2 op.nibble
  else op.unknown

/-- Rust `OpCode::decode_ex` (opcode.rs lines 149-157). -/
def decode_ex (op : OpCode) : String :=
  if op.byte = 0x9E then "SKP V" ++ toString op.reg_x
  else if op.byte = 0xA1 then "SKNP V" ++ toString op.reg_x
  else op.unknown

/-- Rust `OpCode::decode_fx` (opcode.rs lines 163-178). -/
def decode_fx (op : OpCode) : String :=
  if op.byte = 0x07 then "LD V" ++ toString op.reg_x ++ ", DT"
  else if op.byte = 0x0A then "LD V" ++ toString op.reg_x ++ ", K"
  else if op.byte = 0x15 then "LD DT, V" ++ toString op.reg_x
  else if op.byte = 0x18 then "LD ST, V" ++ toString op.reg_x
  else if op.byte = 0x1E then "ADD I, V" ++ toString op.reg_x
  else if op.byte = 0x29 then "LD F, V" ++ toString op.reg_x
  else if op.byte = 0x33 then "LD B, V" ++ toString op.reg_x
  else if op.byte = 0x55 then "LD [I], V" ++ toString op.reg_x
  else if op.byte = 0x65 then "LD V" ++ toString op.reg_x ++ ", [I]"
  else op.unknown

/-- Rust `Decodable::decode` for the emulator `OpCode` (opcode.rs lines
186-206). -/
def decode (op : OpCode) : String :=
  if op.cls = 0x0 then op.decode_0xxx
  else if op.cls = 0x1 then op.decode_nnn
  else if op.cls = 0x2 then op.decode_nnn
  else if op.cls = 0x3 then op.decode_xkk
  else if op.cls = 0x4 then op.decode_xkk
  else if op.cls = 0x5 then op.decode_xy
  else if op.cls = 0x6 then op.decode_xkk
  else if op.cls = 0x7 then op.decode_xkk
  else if op.cls = 0x8 then op.decode_xy
  else if op.cls = 0x9 then op.decode_xy
  else if op.cls = 0xA then op.decode_nnn
  else if op.cls = 0xB then op.decode_nnn
  else if op.cls = 0xC then op.decode_xkk
  else if op.cls = 0xD then op.decode_xy
  else if op.cls = 0xE then op.decode_ex
  else if op.cls = 0xF then op.decode_fx
  else op.unknown

end OpCode

/-- Character prefix that `OpCode::unknown` puts on every unrecognised
opcode rendering. -/
def unknownTag : List Char := ['U', 'N', 'K', 'N', 'O', 'W', 'N']

/-- Whether a mnemonic is an unknown-opcode rendering: it starts with the
seven characters of `unknownTag`.  No recognised mnemonic does. -/
def isUnknownStr (m : String) : Bool := decide (m.data.take 7 = unknownTag)

/-! ## Reachability and concrete states used by individual claims -/

/-- Projection of an `ok` outcome to the resulting state. -/
def getOk : Outcome → Option Cpu
  | .ok s => some s
  | _ => none

/-- Iterate `n` run-loop iterations (random oracle fixed to 0), stopping at
the first abort. -/
def stepN : Nat → Cpu → Option Cpu
  | 0, s => some s
  | n + 1, s =>
    match getOk (Cpu.stepRun s 0) with
    | some s' => stepN n s'
    | none => none

/-- CPU states reachable from a freshly constructed CPU by one successful
program load followed by any number of completed run-loop iterations. -/
inductive Reachable : Cpu → Prop where
  | boot : ∀ data s, Cpu.load_program Cpu.new data = some s → Reachable s
  | step : ∀ s r s', Reachable s → Cpu.stepRun s r = .ok s' → Reachable s'

/-- Structural invariant of reachable states: the list fields keep the
fixed sizes of the Rust arrays and the stack pointer stays at most 15. -/
def Inv (s : Cpu) : Prop :=
  s.memory.length = RAM_SIZE ∧ s.registers.length = REGISTER_COUNT ∧
    s.stack.length = STACK_SIZE ∧ s.sp ≤ 15

/-- Memory image of a freshly constructed CPU after loading `data` at
0x200 (the list `Cpu.load_program` builds when its bounds check passes;
spelled out so that concrete states evaluate without forcing the length
of a 4096-element list, which overflows kernel reduction). -/
def loadedMem (data : List Nat) : List Nat :=
  Cpu.new.memory.take START_ADDR ++ data ++
    Cpu.new.memory.drop (START_ADDR + data.length)

/-- Freshly constructed CPU with `data` loaded. -/
def loadState (data : List Nat) : Cpu := { Cpu.new with memory := loadedMem data }

/-- Program for C1: a single `JP 0x300` instruction. -/
def progJp : List Nat := [0x13, 0x00]

/-- State with `progJp` loaded. -/
def c1Start : Cpu := loadState progJp

/-- State after executing the `JP 0x300` step. -/
def c1After : Cpu := (getOk (Cpu.stepRun c1Start 0)).getD Cpu.new

/-- Program for C3: `CALL 0x204` at 0x200, `RET` at 0x206. -/
def progCallRet : List Nat := [0x22, 0x04, 0x00, 0x00, 0x00, 0x00, 0x00, 0xEE]

/-- State with `progCallRet` loaded. -/
def c3Start : Cpu := loadState progCallRet

/-- State after the `CALL 0x204` step. -/
def c3Mid : Cpu := (getOk (Cpu.stepRun c3Start 0)).getD Cpu.new

/-- State after the subsequent `RET` step. -/
def c3End : Cpu := (getOk (Cpu.stepRun c3Mid 0)).getD Cpu.new

/-- Program for C4: sixteen `CALL` instructions, each calling its own
address, so that execution falls through the list pushing one return
address per step. -/
def progCalls : List Nat :=
  [0x22, 0x00, 0x22, 0x02, 0x22, 0x04, 0x22, 0x06,
   0x22, 0x08, 0x22, 0x0A, 0x22, 0x0C, 0x22, 0x0E,
   0x22, 0x10, 0x22, 0x12, 0x22, 0x14, 0x22, 0x16,
   0x22, 0x18, 0x22, 0x1A, 0x22, 0x1C, 0x22, 0x1E]

/-- State with `progCalls` loaded. -/
def c4Start : Cpu := loadState progCalls

/-- The reachable state after the fifteen successful `CALL` steps: its
stack pointer is 15 and its next instruction is the sixteenth `CALL`. -/
def c4Full : Cpu := (stepN 15 c4Start).getD Cpu.new

/-- State for C5's witness: a single `RET` instruction with empty stack. -/
def c5Start : Cpu := loadState [0x00, 0xEE]

/-- Buffer for C7's counterexample: 3586 bytes, even length, two bytes
longer than the loadable maximum. -/
def bigBuffer : List Nat := List.replicate 3586 0

/-- State for C8's counterexample: result of `ADD V15, 0x01` on a fresh
CPU (opcode 0x7F01 addresses the flag register VF itself). -/
def c8After : Cpu := (getOk (Cpu.execute Cpu.new (OpCode.new 0x7F01) 0)).getD Cpu.new

/-- Program for C9: a single `JP 0xFFF`, which sends the program counter
past the end of memory without ever equalling 4096. -/
def progJpEnd : List Nat := [0x1F, 0xFF]

/-- State with `progJpEnd` loaded. -/
def c9Start : Cpu := loadState progJpEnd

/-- State after the `JP 0xFFF` step: the program counter is 0x1001. -/
def c9Mid : Cpu := (getOk (Cpu.stepRun c9Start 0)).getD Cpu.new

/-- Program for C10's witness: a single `LD V0, 0x05`. -/
def progLd : List Nat := [0x60, 0x05]

/-- State with `progLd` loaded. -/
def c10Start : Cpu := loadState progLd

/-- State after the `LD V0, 0x05` step. -/
def c10After : Cpu := (getOk (Cpu.stepRun c10Start 0)).getD Cpu.new

/-! ## Loading lemma for the concrete states -/

theorem load_program_new_eq (data : List Nat) (h : data.length ≤ 3584) :
    Cpu.new.load_program data = some (loadState data) := by
  unfold Cpu.load_program loadState loadedMem
  rw [if_pos]
  show START_ADDR + data.length ≤ Cpu.new.memory.length
  simp only [Cpu.new, List.length_replicate, START_ADDR, RAM_SIZE]
  omega

/-! ## Bit-level helper lemmas -/

theorem and_mask_shiftRight (w k m : Nat) :
    (w &&& ((2 ^ m - 1) <<< k)) >>> k = w / 2 ^ k % 2 ^ m := by
  apply Nat.eq_of_testBit_eq
  intro i
  rw [← Nat.shiftRight_eq_div_pow]
  simp only [Nat.testBit_shiftRight, Nat.testBit_and, Nat.testBit_shiftLeft,
    Nat.testBit_mod_two_pow, Nat.testBit_two_pow_sub_one, Nat.add_sub_cancel_left,
    Nat.le_add_right, decide_True, Bool.true_and, Bool.and_true]
  rw [Bool.and_comm]

theorem OpCode.new_cls (w : Nat) : (OpCode.new w).cls = w / 4096 % 16 := by
  show (w &&& 0xF000) >>> 12 = _
  have h : (0xF000 : Nat) = (2 ^ 4 - 1) <<< 12 := by decide
  rw [h, and_mask_shiftRight]
  norm_num

theorem OpCode.new_addr (w : Nat) : (OpCode.new w).addr = w % 4096 := by
  show w &&& 0x0FFF = _
  have h : (0x0FFF : Nat) = 2 ^ 12 - 1 := by norm_num
  rw [h, Nat.and_pow_two_sub_one_eq_mod]

theorem OpCode.new_reg_x (w : Nat) : (OpCode.new w).reg_x = w / 256 % 16 := by
  show (w &&& 0x0F00) >>> 8 = _
  have h : (0x0F00 : Nat) = (2 ^ 4 - 1) <<< 8 := by decide
  rw [h, and_mask_shiftRight]
  norm_num

theorem OpCode.new_reg_y (w : Nat) : (OpCode.new w).reg_y = w / 16 % 16 := by
  show (w &&& 0x00F0) >>> 4 = _
  have h : (0x00F0 : Nat) = (2 ^ 4 - 1) <<< 4 := by decide
  rw [h, and_mask_shiftRight]
  norm_num

theorem OpCode.new_byte (w : Nat) : (OpCode.new w).byte = w % 256 := by
  show w &&& 0x00FF = _
  have h : (0x00FF : Nat) = 2 ^ 8 - 1 := by norm_num
  rw [h, Nat.and_pow_two_sub_one_eq_mod]

theorem OpCode.new_nibble (w : Nat) : (OpCode.new w).nibble = w % 16 := by
  show w &&& 0x000F = _
  have h : (0x000F : Nat) = 2 ^ 4 - 1 := by norm_num
  rw [h, Nat.and_pow_two_sub_one_eq_mod]

theorem OpCode.new_cls_lt (w : Nat) : (OpCode.new w).cls < 16 := by
  rw [OpCode.new_cls]; omega

/-! ## C6 -/

/-- C6: decoding is a total, deterministic, pure function of the raw word:
for every 16-bit word `w`, `OpCode::new` produces exactly
class = `w >> 12`, addr = `w & 0x0FFF`, reg_x = `(w >> 8) & 0xF`,
reg_y = `(w >> 4) & 0xF`, byte = `w & 0xFF` and nibble = `w & 0xF`
(totality over all 65536 values is inherent: `OpCode.new` is a function
defined on every word and returns a structure, never an error). -/
theorem decode_fields_exact (w : Nat) (hw : w < 65536) :
    (OpCode.new w).cls = w >>> 12 ∧
    (OpCode.new w).addr = w &&& 0x0FFF ∧
    (OpCode.new w).reg_x = (w >>> 8) &&& 0xF ∧
    (OpCode.new w).reg_y = (w >>> 4) &&& 0xF ∧
    (OpCode.new w).byte = w &&& 0xFF ∧
    (OpCode.new w).nibble = w &&& 0xF := by
  have hF : (0xF : Nat) = 2 ^ 4 - 1 := by norm_num
  refine ⟨?_, rfl, ?_, ?_, rfl, rfl⟩
  · rw [OpCode.new_cls, Nat.shiftRight_eq_div_pow]
    norm_num
    omega
  · rw [OpCode.new_reg_x, Nat.shiftRight_eq_div_pow, hF, Nat.and_pow_two_sub_one_eq_mod]
  · rw [OpCode.new_reg_y, Nat.shiftRight_eq_div_pow, hF, Nat.and_pow_two_sub_one_eq_mod]

/-- Witness for C6 at the concrete word 0xDEAD. -/
theorem decode_fields_exact_witness :
    (OpCode.new 0xDEAD).cls = 0xDEAD >>> 12 ∧
    (OpCode.new 0xDEAD).addr = 0xDEAD &&& 0x0FFF ∧
    (OpCode.new 0xDEAD).reg_x = (0xDEAD >>> 8) &&& 0xF ∧
    (OpCode.new 0xDEAD).reg_y = (0xDEAD >>> 4) &&& 0xF ∧
    (OpCode.new 0xDEAD).byte = 0xDEAD &&& 0xFF ∧
    (OpCode.new 0xDEAD).nibble = 0xDEAD &&& 0xF :=
  decode_fields_exact 0xDEAD (by decide)

/-! ## C1 -/

/-- C1: the claim says the program counter is advanced by 2 *before* the
decoded instruction is dispatched, so that after a step executing
`JP 0x300` the program counter equals 0x300 exactly.  The code advances
the program counter *after* dispatch (cpu.rs lines 83-86), so the step
that executes `JP 0x300` actually ends with the program counter at 0x302:
the generic advance clobbers the jump target. -/
theorem jump_target_clobbered :
    Cpu.stepRun c1Start 0 = .ok c1After ∧ c1After.pc = 0x302 :=
  ⟨rfl, rfl⟩

/-! ## C3 -/

/-- C3: the claim says a CALL followed by a RET restores the program
counter to the instruction after the CALL, the RET popping exactly what
the CALL pushed.  In the code, `call` pre-increments and writes the
return address into `stack[sp + 1]`, while `ret` post-decrements and reads
`stack[sp - 1]` — one slot *below* the one the CALL wrote.  From a fresh
CPU, `CALL 0x204` at 0x200 pushes 0x200 into `stack[1]`, but the
subsequent `RET` pops `stack[0]` (still 0), leaving the program counter
at 0x0002 instead of 0x202. -/
theorem call_ret_mismatch :
    Cpu.stepRun c3Start 0 = .ok c3Mid ∧
    c3Mid.sp = 1 ∧ c3Mid.stack.get? 1 = some 0x200 ∧ c3Mid.pc = 0x206 ∧
    Cpu.stepRun c3Mid 0 = .ok c3End ∧
    c3End.sp = 0 ∧ c3End.pc = 0x0002 :=
  ⟨rfl, rfl, rfl, rfl, rfl, rfl, rfl⟩

/-! ## C5 -/

/-- C5: executing RET (raw word 0x00EE) with an empty stack (stack pointer
zero) is a no-op, not an error: the step completes normally (no crash, no
unknown-opcode exit) and the resulting state differs from the original
only by the loop's generic `pc += 2` advance — registers, index register,
stack, stack pointer, memory and both timers are untouched. -/
theorem ret_empty_stack_noop (s : Cpu) (r : Nat) (hsp : s.sp = 0)
    (hhi : s.memory.get? s.pc = some 0x00)
    (hlo : s.memory.get? (s.pc + 1) = some 0xEE) :
    Cpu.stepRun s r = .ok { s with pc := (s.pc + 2) % 65536 } := by
  unfold Cpu.stepRun Cpu.fetch?
  rw [hhi, hlo]
  show Cpu.execAdvance s 0x00EE r = _
  unfold Cpu.execAdvance
  have hop : OpCode.new 0x00EE =
      { raw := 0x00EE, cls := 0, addr := 0xEE, reg_x := 0, reg_y := 0xE,
        byte := 0xEE, nibble := 0xE } := by decide
  rw [hop]
  norm_num [Cpu.execute, Cpu.execute_0xxx, Cpu.ret, hsp]

/-- Witness for C5: a fresh CPU whose program is the single RET. -/
theorem ret_empty_stack_noop_witness :
    Cpu.stepRun c5Start 0 = .ok { c5Start with pc := (c5Start.pc + 2) % 65536 } :=
  ret_empty_stack_noop c5Start 0 rfl rfl rfl

/-! ## C8 -/

/-- C8 (amended): for every state, register index x and immediate kk,
executing `ADD Vx, kk` (raw word 0x7xkk) succeeds and sets Vx to
`(Vx + kk) % 256`, wrapping on overflow, and leaves every *other*
register — in particular the flag register VF whenever x ≠ 0xF —
unchanged; no carry flag is written.  (The original claim's "leaves VF
unchanged" fails in the single case x = 0xF, where Vx *is* VF: see the
counterexample.) -/
theorem add_reg_byte_wrap (s : Cpu) (x kk r v : Nat) (hx : x < 16)
    (hkk : kk < 256) (hreg : s.registers.length = 16)
    (hv : s.registers.get? x = some v) :
    Cpu.execute s (OpCode.new (0x7000 + 256 * x + kk)) r =
      .ok { s with registers := s.registers.set x ((v + kk) % 256) } ∧
    (s.registers.set x ((v + kk) % 256)).get? x = some ((v + kk) % 256) ∧
    (∀ j, j ≠ x → (s.registers.set x ((v + kk) % 256)).get? j = s.registers.get? j) := by
  have hcls : (OpCode.new (0x7000 + 256 * x + kk)).cls = 7 := by
    rw [OpCode.new_cls]; omega
  have hrx : (OpCode.new (0x7000 + 256 * x + kk)).reg_x = x := by
    rw [OpCode.new_reg_x]; omega
  have hbyte : (OpCode.new (0x7000 + 256 * x + kk)).byte = kk := by
    rw [OpCode.new_byte]; omega
  have hvx : s.registers[x] = v := by
    have h1 : s.registers[x]? = some v := by rw [← List.get?_eq_getElem?]; exact hv
    rwa [List.getElem?_eq_getElem (by omega), Option.some.injEq] at h1
  refine ⟨?_, ?_, ?_⟩
  · unfold Cpu.execute Cpu.execute_xkk
    rw [hcls, hrx, hbyte]
    norm_num [Cpu.add_reg_byte, hv, listSet?, hreg, hx]
    rw [hvx]
  · rw [List.get?_eq_getElem?]
    exact List.getElem?_set_eq_of_lt _ (by omega)
  · intro j hj
    rw [List.get?_eq_getElem?, List.get?_eq_getElem?]
    exact List.getElem?_set_ne (fun hxj => hj hxj.symm)

/-- Witness for C8 at x = 3, kk = 200 on a fresh CPU: V3 becomes
(0 + 200) % 256 and VF (register 15) is untouched. -/
theorem add_reg_byte_wrap_witness :
    Cpu.execute Cpu.new (OpCode.new (0x7000 + 256 * 3 + 200)) 0 =
      .ok { Cpu.new with registers := Cpu.new.registers.set 3 ((0 + 200) % 256) } ∧
    (Cpu.new.registers.set 3 ((0 + 200) % 256)).get? 3 = some ((0 + 200) % 256) ∧
    (Cpu.new.registers.set 3 ((0 + 200) % 256)).get? 15 = Cpu.new.registers.get? 15 :=
  ⟨(add_reg_byte_wrap Cpu.new 3 200 0 0 (by norm_num) (by norm_num) rfl rfl).1,
    (add_reg_byte_wrap Cpu.new 3 200 0 0 (by norm_num) (by norm_num) rfl rfl).2.1,
    (add_reg_byte_wrap Cpu.new 3 200 0 0 (by norm_num) (by norm_num) rfl rfl).2.2 15
      (by norm_num)⟩

/-- Counterexample for C8 as stated: `ADD V15, 0x01` (raw word 0x7F01)
addresses the flag register itself and changes VF from 0 to 1, so "leaves
VF unchanged" does not hold for every register operand. -/
theorem add_vf_flag_clobbered :
    Cpu.execute Cpu.new (OpCode.new 0x7F01) 0 = .ok c8After ∧
    Cpu.new.registers.get? 15 = some 0 ∧
    c8After.registers.get? 15 = some 1 :=
  ⟨rfl, rfl, rfl⟩

/-! ## C7 -/

/-- C7 (amended): a program of odd byte length is rejected by
`extract_program` with a reported error before any execution; a program
that fits (length at most 3584 = 4096 - 0x200) is copied verbatim into
memory starting at 0x200, leaving every other byte and every other CPU
field untouched; but there is *no* ProgramTooLarge check: an even-length
program longer than 3584 bytes passes extraction and `load_program`
panics on the out-of-range slice (see the counterexample) instead of
reporting an error. -/
theorem load_program_spec (s : Cpu) (data : List Nat)
    (hm : s.memory.length = 4096) :
    (data.length % 2 = 1 →
      extract_program data = .error "Buffer should have even byte length") ∧
    (3584 < data.length → Cpu.load_program s data = none) ∧
    (data.length ≤ 3584 →
      ∃ s', Cpu.load_program s data = some s' ∧
        s'.registers = s.registers ∧ s'.register_i = s.register_i ∧
        s'.pc = s.pc ∧ s'.sp = s.sp ∧ s'.stack = s.stack ∧
        s'.dt = s.dt ∧ s'.st = s.st ∧
        (∀ i, i < START_ADDR → s'.memory.get? i = s.memory.get? i) ∧
        (∀ j, j < data.length → s'.memory.get? (START_ADDR + j) = data.get? j) ∧
        (∀ i, START_ADDR + data.length ≤ i → s'.memory.get? i = s.memory.get? i)) := by
  have hSA : START_ADDR = 512 := rfl
  refine ⟨?_, ?_, ?_⟩
  · intro hodd
    unfold extract_program
    rw [if_pos (by omega)]
  · intro hbig
    unfold Cpu.load_program
    rw [if_neg (by omega)]
  · intro hle
    have hcond : START_ADDR + data.length ≤ s.memory.length := by omega
    have lenA : (s.memory.take START_ADDR).length = 512 := by
      simp [List.length_take, hm, hSA]
    have lenAB : (s.memory.take START_ADDR ++ data).length = 512 + data.length := by
      simp [List.length_append, lenA]
    refine ⟨{ s with memory := s.memory.take START_ADDR ++ data ++
        s.memory.drop (START_ADDR + data.length) },
      ?_, rfl, rfl, rfl, rfl, rfl, rfl, rfl, ?_, ?_, ?_⟩
    · unfold Cpu.load_program
      rw [if_pos hcond]
    · intro i hi
      show (s.memory.take START_ADDR ++ data ++
        s.memory.drop (START_ADDR + data.length)).get? i = s.memory.get? i
      rw [List.get?_eq_getElem?, List.get?_eq_getElem?,
        List.getElem?_append_left (by omega),
        List.getElem?_append_left (by omega),
        List.getElem?_take_of_lt (by omega)]
    · intro j hj
      show (s.memory.take START_ADDR ++ data ++
        s.memory.drop (START_ADDR + data.length)).get? (START_ADDR + j) = data.get? j
      rw [List.get?_eq_getElem?, List.get?_eq_getElem?,
        List.getElem?_append_left (by omega),
        List.getElem?_append_right (by omega), lenA]
      congr 1
      omega
    · intro i hi
      show (s.memory.take START_ADDR ++ data ++
        s.memory.drop (START_ADDR + data.length)).get? i = s.memory.get? i
      rw [List.get?_eq_getElem?, List.get?_eq_getElem?,
        List.getElem?_append_right (by omega), lenAB, List.getElem?_drop]
      congr 1
      omega

/-- Witness for C7: the odd one-byte program `[0]` is rejected with the
reported error, and the oversize `bigBuffer` makes `load_program` panic. -/
theorem load_program_spec_witness :
    extract_program [0] = .error "Buffer should have even byte length" ∧
    Cpu.new.load_program bigBuffer = none :=
  ⟨(load_program_spec Cpu.new [0]
      (by show (List.replicate RAM_SIZE 0).length = 4096
          rw [List.length_replicate]; rfl)).1 rfl,
    (load_program_spec Cpu.new bigBuffer
      (by show (List.replicate RAM_SIZE 0).length = 4096
          rw [List.length_replicate]; rfl)).2.1
      (by norm_num [bigBuffer])⟩

/-- Counterexample for C7 as stated: a 3586-byte buffer (even length, two
bytes over the limit) sails through `extract_program` — so no load-time
`ProgramTooLarge` error is ever reported — and `load_program` then panics
on the out-of-range slice `memory[0x200 .. 0x200 + 3586]`. -/
theorem oversize_program_not_reported :
    extract_program bigBuffer = .ok bigBuffer ∧
    Cpu.new.load_program bigBuffer = none := by
  constructor
  · unfold extract_program bigBuffer
    rw [if_neg]
    rw [List.length_replicate]
    omega
  · unfold Cpu.load_program bigBuffer
    rw [if_neg]
    show ¬(START_ADDR + (List.replicate 3586 (0 : Nat)).length ≤
      (List.replicate RAM_SIZE (0 : Nat)).length)
    rw [List.length_replicate, List.length_replicate]
    decide

/-! ## C9 -/

/-- C9 (amended): the run loop halts cleanly precisely when the program
counter *equals* the memory size 4096: whenever `pc = 4096` at the top of
the loop, `run` exits normally with the state intact.  (A program counter
that walks *past* the end without landing exactly on 4096 crashes on an
out-of-bounds fetch instead: see the counterexample.) -/
theorem run_halts_at_end (rand : Nat → Nat) (fuel : Nat) (s : Cpu)
    (h : s.pc = RAM_SIZE) :
    Cpu.runFuel rand (fuel + 1) s = .halted s := by
  unfold Cpu.runFuel
  rw [if_pos h]

/-- Witness for C9 at a CPU whose program counter is 4096. -/
theorem run_halts_at_end_witness :
    Cpu.runFuel (fun _ => 0) 1 { Cpu.new with pc := 4096 } =
      .halted { Cpu.new with pc := 4096 } :=
  run_halts_at_end (fun _ => 0) 0 { Cpu.new with pc := 4096 } rfl

/-- Counterexample for C9 as stated: `JP 0xFFF` sends the program counter
to 0x1001 = 4097 — past the end of the 4096-byte address space — and the
next iteration fetches out of bounds and crashes; `run` does not halt. -/
theorem run_walks_past_end :
    Cpu.stepRun c9Start 0 = .ok c9Mid ∧ c9Mid.pc = 0x1001 ∧
    Cpu.runFuel (fun _ => 0) 3 c9Start = .crashed :=
  ⟨rfl, rfl, rfl⟩

/-! ## Dispatcher inversion and frame lemmas -/

theorem listSet?_some {l l' : List Nat} {i v : Nat} (h : listSet? l i v = some l') :
    i < l.length ∧ l' = l.set i v := by
  unfold listSet? at h
  by_cases hi : i < l.length
  · rw [if_pos hi] at h
    cases h
    exact ⟨hi, rfl⟩
  · rw [if_neg hi] at h
    cases h

theorem ret_ok {s s' : Cpu} (h : Cpu.ret s = .ok s') :
    (s.sp = 0 ∧ s' = s) ∨
      (0 < s.sp ∧ ∃ a, s.stack.get? (s.sp - 1) = some a ∧
        s' = { s with sp := s.sp - 1, pc := a }) := by
  unfold Cpu.ret at h
  by_cases hsp : 0 < s.sp
  · rw [if_pos hsp] at h
    cases ha : s.stack.get? (s.sp - 1) with
    | none => rw [ha] at h; cases h
    | some a => rw [ha] at h; cases h; exact Or.inr ⟨hsp, a, rfl, rfl⟩
  · rw [if_neg hsp] at h
    cases h
    exact Or.inl ⟨by omega, rfl⟩

theorem call_ok {s s' : Cpu} {addr : Nat} (h : Cpu.call s addr = .ok s') :
    (s.sp + 1) % 256 < s.stack.length ∧
      s' = { s with
        sp := (s.sp + 1) % 256,
        stack := s.stack.set ((s.sp + 1) % 256) s.pc,
        pc := addr } := by
  unfold Cpu.call at h
  cases hset : listSet? s.stack ((s.sp + 1) % 256) s.pc with
  | none => rw [hset] at h; cases h
  | some st =>
    rw [hset] at h
    cases h
    obtain ⟨hlt, hst⟩ := listSet?_some hset
    exact ⟨hlt, by rw [hst]⟩

theorem jump_by_offset_ok {s s' : Cpu} {addr : Nat}
    (h : Cpu.jump_by_offset s addr = .ok s') :
    ∃ v0, s.registers.get? 0 = some v0 ∧
      s' = { s with pc := (v0 + addr) % 65536 } := by
  unfold Cpu.jump_by_offset at h
  cases hv : s.registers.get? 0 with
  | none => rw [hv] at h; cases h
  | some v0 => rw [hv] at h; cases h; exact ⟨v0, rfl, rfl⟩

theorem skip_eq_ok {s s' : Cpu} {reg byte : Nat} (h : Cpu.skip_eq s reg byte = .ok s') :
    ∃ v, s.registers.get? reg = some v ∧
      s' = if v = byte then { s with pc := (s.pc + 2) % 65536 } else s := by
  unfold Cpu.skip_eq at h
  cases hv : s.registers.get? reg with
  | none => rw [hv] at h; cases h
  | some v => rw [hv] at h; cases h; exact ⟨v, rfl, rfl⟩

theorem skip_ne_ok {s s' : Cpu} {reg byte : Nat} (h : Cpu.skip_ne s reg byte = .ok s') :
    ∃ v, s.registers.get? reg = some v ∧
      s' = if v ≠ byte then { s with pc := (s.pc + 2) % 65536 } else s := by
  unfold Cpu.skip_ne at h
  cases hv : s.registers.get? reg with
  | none => rw [hv] at h; cases h
  | some v => rw [hv] at h; cases h; exact ⟨v, rfl, rfl⟩

theorem set_reg_byte_ok {s s' : Cpu} {reg byte : Nat}
    (h : Cpu.set_reg_byte s reg byte = .ok s') :
    reg < s.registers.length ∧ s' = { s with registers := s.registers.set reg byte } := by
  unfold Cpu.set_reg_byte at h
  cases hset : listSet? s.registers reg byte with
  | none => rw [hset] at h; cases h
  | some rs =>
    rw [hset] at h
    cases h
    obtain ⟨hlt, hrs⟩ := listSet?_some hset
    exact ⟨hlt, by rw [hrs]⟩

theorem add_reg_byte_ok {s s' : Cpu} {reg byte : Nat}
    (h : Cpu.add_reg_byte s reg byte = .ok s') :
    ∃ v, s.registers.get? reg = some v ∧ reg < s.registers.length ∧
      s' = { s with registers := s.registers.set reg ((v + byte) % 256) } := by
  unfold Cpu.add_reg_byte at h
  cases hv : s.registers.get? reg with
  | none => rw [hv] at h; cases h
  | some v =>
    rw [hv] at h
    dsimp only at h
    cases hset : listSet? s.registers reg ((v + byte) % 256) with
    | none => rw [hset] at h; cases h
    | some rs =>
      rw [hset] at h
      cases h
      obtain ⟨hlt, hrs⟩ := listSet?_some hset
      exact ⟨v, rfl, hlt, by rw [hrs]⟩

theorem rnd_ok {s s' : Cpu} {reg byte r : Nat} (h : Cpu.rnd s reg byte r = .ok s') :
    reg < s.registers.length ∧
      s' = { s with registers := s.registers.set reg ((r % 255) &&& byte) } := by
  unfold Cpu.rnd at h
  cases hset : listSet? s.registers reg ((r % 255) &&& byte) with
  | none => rw [hset] at h; cases h
  | some rs =>
    rw [hset] at h
    cases h
    obtain ⟨hlt, hrs⟩ := listSet?_some hset
    exact ⟨hlt, by rw [hrs]⟩

theorem execute_ok_frame (s : Cpu) (op : OpCode) (r : Nat) (s' : Cpu)
    (hcls : op.cls < 16) (h : Cpu.execute s op r = .ok s') :
    s'.memory = s.memory ∧ s'.registers.length = s.registers.length ∧
      s'.stack.length = s.stack.length ∧
      (s'.sp ≤ s.sp ∨ s'.sp < s.stack.length) := by
  obtain ⟨raw, cls, addr, rx, ry, kk, nib⟩ := op
  have hc : cls < 16 := hcls
  interval_cases cls
  · -- class 0x0
    norm_num [Cpu.execute] at h
    unfold Cpu.execute_0xxx at h
    split at h
    · unfold Cpu.clear_display at h; cases h
    · split at h
      · rcases ret_ok h with ⟨_, rfl⟩ | ⟨_, a, _, rfl⟩
        · exact ⟨rfl, rfl, rfl, Or.inl (Nat.le_refl _)⟩
        · exact ⟨rfl, rfl, rfl, Or.inl (Nat.sub_le _ _)⟩
      · unfold Cpu.sys at h; cases h
        exact ⟨rfl, rfl, rfl, Or.inl (Nat.le_refl _)⟩
  · -- class 0x1
    norm_num [Cpu.execute, Cpu.execute_0nnn] at h
    unfold Cpu.jump at h; cases h
    exact ⟨rfl, rfl, rfl, Or.inl (Nat.le_refl _)⟩
  · -- class 0x2
    norm_num [Cpu.execute, Cpu.execute_0nnn] at h
    obtain ⟨hlt, rfl⟩ := call_ok h
    exact ⟨rfl, rfl, by simp [List.length_set], Or.inr (by simpa using hlt)⟩
  · -- class 0x3
    norm_num [Cpu.execute, Cpu.execute_xkk] at h
    obtain ⟨v, hv, rfl⟩ := skip_eq_ok h
    refine ⟨by split <;> rfl, by split <;> rfl, by split <;> rfl,
      Or.inl (by split <;> exact Nat.le_refl _)⟩
  · -- class 0x4
    norm_num [Cpu.execute, Cpu.execute_xkk] at h
    obtain ⟨v, hv, rfl⟩ := skip_ne_ok h
    refine ⟨by split <;> rfl, by split <;> rfl, by split <;> rfl,
      Or.inl (by split <;> exact Nat.le_refl _)⟩
  · -- class 0x5
    norm_num [Cpu.execute] at h
    cases h
  · -- class 0x6
    norm_num [Cpu.execute, Cpu.execute_xkk] at h
    obtain ⟨hlt, rfl⟩ := set_reg_byte_ok h
    exact ⟨rfl, by simp [List.length_set], rfl, Or.inl (Nat.le_refl _)⟩
  · -- class 0x7
    norm_num [Cpu.execute, Cpu.execute_xkk] at h
    obtain ⟨v, hv, hlt, rfl⟩ := add_reg_byte_ok h
    exact ⟨rfl, by simp [List.length_set], rfl, Or.inl (Nat.le_refl _)⟩
  · -- class 0x8
    norm_num [Cpu.execute] at h
    cases h
  · -- class 0x9
    norm_num [Cpu.execute] at h
    cases h
  · -- class 0xA
    norm_num [Cpu.execute, Cpu.execute_0nnn] at h
    unfold Cpu.set_reg_i at h; cases h
    exact ⟨rfl, rfl, rfl, Or.inl (Nat.le_refl _)⟩
  · -- class 0xB
    norm_num [Cpu.execute, Cpu.execute_0nnn] at h
    obtain ⟨v0, hv0, rfl⟩ := jump_by_offset_ok h
    exact ⟨rfl, rfl, rfl, Or.inl (Nat.le_refl _)⟩
  · -- class 0xC
    norm_num [Cpu.execute, Cpu.execute_xkk] at h
    obtain ⟨hlt, rfl⟩ := rnd_ok h
    exact ⟨rfl, by simp [List.length_set], rfl, Or.inl (Nat.le_refl _)⟩
  · -- class 0xD
    norm_num [Cpu.execute] at h
    cases h
  · -- class 0xE
    norm_num [Cpu.execute] at h
    unfold Cpu.execute_ex at h
    split at h
    · unfold Cpu.skip_if_key_pressed at h; cases h
    · split at h
      · unfold Cpu.skip_if_key_not_pressed at h; cases h
      · cases h
  · -- class 0xF
    norm_num [Cpu.execute] at h
    cases h

theorem stepRun_ok_frame (s : Cpu) (r : Nat) (s' : Cpu)
    (h : Cpu.stepRun s r = .ok s') :
    s'.memory = s.memory ∧ s'.registers.length = s.registers.length ∧
      s'.stack.length = s.stack.length ∧
      (s'.sp ≤ s.sp ∨ s'.sp < s.stack.length) := by
  unfold Cpu.stepRun at h
  cases hf : Cpu.fetch? s with
  | none => rw [hf] at h; cases h
  | some w =>
    rw [hf] at h
    dsimp only at h
    unfold Cpu.execAdvance at h
    cases he : Cpu.execute s (OpCode.new w) r with
    | ok s₁ =>
      rw [he] at h
      cases h
      have hfr := execute_ok_frame s (OpCode.new w) r s₁ (OpCode.new_cls_lt w) he
      exact ⟨hfr.1, hfr.2.1, hfr.2.2.1, hfr.2.2.2⟩
    | unknownOp u => rw [he] at h; cases h
    | crash => rw [he] at h; cases h

theorem stepRun_ok_inv (s s' : Cpu) (r : Nat) (hs : Inv s)
    (h : Cpu.stepRun s r = .ok s') : Inv s' := by
  obtain ⟨hm, hr, hst, hsp⟩ := hs
  obtain ⟨h1, h2, h3, h4⟩ := stepRun_ok_frame s r s' h
  refine ⟨by rw [h1]; exact hm, by rw [h2]; exact hr, by rw [h3]; exact hst, ?_⟩
  rcases h4 with h4 | h4
  · omega
  · rw [hst] at h4
    unfold STACK_SIZE at h4
    omega

theorem load_inv (data : List Nat) (s : Cpu)
    (h : Cpu.load_program Cpu.new data = some s) : Inv s := by
  have hlen : Cpu.new.memory.length = 4096 := by
    show (List.replicate RAM_SIZE 0).length = 4096
    rw [List.length_replicate]
    rfl
  unfold Cpu.load_program at h
  split at h
  · cases h
    refine ⟨?_, rfl, rfl, by show (0 : Nat) ≤ 15; omega⟩
    show (Cpu.new.memory.take START_ADDR ++ data ++
      Cpu.new.memory.drop (START_ADDR + data.length)).length = RAM_SIZE
    rw [List.length_append, List.length_append, List.length_take,
      List.length_drop, hlen]
    have hc : START_ADDR + data.length ≤ Cpu.new.memory.length := by assumption
    rw [hlen] at hc
    unfold START_ADDR at hc ⊢
    unfold RAM_SIZE
    omega
  · cases h

/-- Every reachable state satisfies the structural invariant; in
particular its stack pointer is at most 15. -/
theorem reachable_inv (s : Cpu) (h : Reachable s) : Inv s := by
  induction h with
  | boot data s hload => exact load_inv data s hload
  | step s r s' _ hstep ih => exact stepRun_ok_inv s s' r ih hstep

theorem stepN_reachable : ∀ (n : Nat) (s s' : Cpu), Reachable s →
    stepN n s = some s' → Reachable s'
  | 0, s, s', hs, h => by
    unfold stepN at h
    cases h
    exact hs
  | n + 1, s, s', hs, h => by
    unfold stepN at h
    cases hg : getOk (Cpu.stepRun s 0) with
    | none => rw [hg] at h; cases h
    | some s₁ =>
      rw [hg] at h
      have hst : Cpu.stepRun s 0 = .ok s₁ := by
        unfold getOk at hg
        split at hg
        · cases hg; assumption
        · cases hg
      exact stepN_reachable n s₁ s' (Reachable.step s 0 s₁ hs hst) h

/-! ## C10 -/

/-- C10: for every instruction the dispatcher executes without aborting,
the memory after the run-loop step equals the memory before it: memory is
written only by `load_program`, never by an opcode handler (the fetch
reads memory and every handler leaves it untouched). -/
theorem step_preserves_memory (s s' : Cpu) (r : Nat)
    (h : Cpu.stepRun s r = .ok s') : s'.memory = s.memory :=
  (stepRun_ok_frame s r s' h).1

/-- Witness for C10: the `LD V0, 0x05` step writes a register, not
memory. -/
theorem step_preserves_memory_witness : c10After.memory = c10Start.memory :=
  step_preserves_memory c10Start c10After 0 rfl

/-! ## C4 -/

/-- C4 (amended): in every state reachable by load and step operations the
stack pointer is at most 15, so it never exceeds 16 — in fact the stack
never holds more than 15 return addresses, because `call` pre-increments
and writes `stack[sp + 1]`; and a CALL issued at the deepest reachable
stack (sp = 15) aborts with an out-of-bounds index panic on `stack[16]` —
it does not write outside the 16-entry array, but neither does it report
a structured StackOverflow error (the crash is indistinguishable from any
other panic, unlike the reported unknown-opcode exit). -/
theorem stack_depth_limited :
    (∀ s, Reachable s → s.sp ≤ 15) ∧
    (∀ s addr r, s.stack.length = STACK_SIZE → s.sp = 15 → addr < 4096 →
      Cpu.execute s (OpCode.new (0x2000 + addr)) r = .crash) := by
  constructor
  · intro s hs
    exact (reachable_inv s hs).2.2.2
  · intro s addr r hlen hsp haddr
    have hcls : (OpCode.new (0x2000 + addr)).cls = 2 := by
      rw [OpCode.new_cls]; omega
    unfold Cpu.execute
    rw [hcls]
    norm_num [Cpu.execute_0nnn, hcls, Cpu.call, listSet?, hsp, hlen, STACK_SIZE]

/-- Witness for C4: the reachable state after fifteen nested CALLs has
stack pointer 15, and a CALL issued there crashes. -/
theorem stack_depth_limited_witness :
    c4Full.sp ≤ 15 ∧ Cpu.execute c4Full (OpCode.new (0x2000 + 0x21E)) 0 = .crash :=
  ⟨stack_depth_limited.1 c4Full
      (stepN_reachable 15 c4Start c4Full
        (Reachable.boot progCalls c4Start
          (load_program_new_eq progCalls (by norm_num [progCalls])))
        rfl),
    stack_depth_limited.2 c4Full 0x21E 0 rfl rfl (by norm_num)⟩

/-- Counterexample for C4 as stated: the claim's "CALL with the stack
already holding 16 return addresses fails as a *reported* StackOverflow"
has no instance in the code — the stack can never hold 16 return
addresses: after fifteen nested CALLs (the reachable maximum) the stack
pointer is 15, and the sixteenth CALL step aborts with an out-of-bounds
panic (`crash`), which is not a reported error (the `unknownOp` exit is
the only reported abort in the code). -/
theorem call_overflow_unreported :
    Reachable c4Full ∧ c4Full.sp = 15 ∧ Cpu.stepRun c4Full 0 = .crash :=
  ⟨stepN_reachable 15 c4Start c4Full
      (Reachable.boot progCalls c4Start
        (load_program_new_eq progCalls (by norm_num [progCalls])))
      rfl,
    rfl, rfl⟩

/-! ## C2 string lemmas, unknown-exit characterisation and the
disassembler/dispatcher agreement -/

theorem isU_false_head (m : String) (c : Char) (hc : m.data.head? = some c)
    (h : c ≠ 'U') : isUnknownStr m = false := by
  obtain ⟨d⟩ := m
  cases d with
  | nil => rfl
  | cons a cs =>
    simp only [List.head?, Option.some.injEq] at hc
    subst hc
    simp only [isUnknownStr, unknownTag, show (7 : Nat) = 6 + 1 from rfl,
      List.take_succ_cons, decide_eq_false_iff_not]
    intro hcon
    exact h (by rw [List.cons.injEq] at hcon; rw [hcon.1])

theorem isUnknownStr_unknown (op : OpCode) : isUnknownStr op.unknown = true := rfl

theorem ret_ne_unknownOp (s : Cpu) (u : Nat) : Cpu.ret s ≠ .unknownOp u := by
  unfold Cpu.ret
  intro h
  split at h
  · cases ha : s.stack.get? (s.sp - 1) <;> rw [ha] at h <;> cases h
  · cases h

theorem call_ne_unknownOp (s : Cpu) (addr u : Nat) : Cpu.call s addr ≠ .unknownOp u := by
  unfold Cpu.call
  intro h
  cases hset : listSet? s.stack ((s.sp + 1) % 256) s.pc <;> rw [hset] at h <;> cases h

theorem jump_by_offset_ne_unknownOp (s : Cpu) (addr u : Nat) :
    Cpu.jump_by_offset s addr ≠ .unknownOp u := by
  unfold Cpu.jump_by_offset
  intro h
  cases hv : s.registers.get? 0 <;> rw [hv] at h <;> cases h

theorem skip_eq_ne_unknownOp (s : Cpu) (reg byte u : Nat) :
    Cpu.skip_eq s reg byte ≠ .unknownOp u := by
  unfold Cpu.skip_eq
  intro h
  cases hv : s.registers.get? reg <;> rw [hv] at h <;> cases h

theorem skip_ne_ne_unknownOp (s : Cpu) (reg byte u : Nat) :
    Cpu.skip_ne s reg byte ≠ .unknownOp u := by
  unfold Cpu.skip_ne
  intro h
  cases hv : s.registers.get? reg <;> rw [hv] at h <;> cases h

theorem set_reg_byte_ne_unknownOp (s : Cpu) (reg byte u : Nat) :
    Cpu.set_reg_byte s reg byte ≠ .unknownOp u := by
  unfold Cpu.set_reg_byte
  intro h
  cases hset : listSet? s.registers reg byte <;> rw [hset] at h <;> cases h

theorem add_reg_byte_ne_unknownOp (s : Cpu) (reg byte u : Nat) :
    Cpu.add_reg_byte s reg byte ≠ .unknownOp u := by
  unfold Cpu.add_reg_byte
  intro h
  cases hv : s.registers.get? reg with
  | none => rw [hv] at h; cases h
  | some v =>
    rw [hv] at h
    dsimp only at h
    cases hset : listSet? s.registers reg ((v + byte) % 256) <;>
      rw [hset] at h <;> cases h

theorem rnd_ne_unknownOp (s : Cpu) (reg byte r u : Nat) :
    Cpu.rnd s reg byte r ≠ .unknownOp u := by
  unfold Cpu.rnd
  intro h
  cases hset : listSet? s.registers reg ((r % 255) &&& byte) <;>
    rw [hset] at h <;> cases h

theorem dispatch_decode_agreement_op (s : Cpu) (op : OpCode) (r : Nat)
    (hcls : op.cls < 16) :
    (∀ s', Cpu.execute s op r = .ok s' → isUnknownStr op.decode = false) ∧
    (∀ u, Cpu.execute s op r = .unknownOp u → isUnknownStr op.decode = true) := by
  obtain ⟨raw, cls, addr, rx, ry, kk, nib⟩ := op
  have hc : cls < 16 := hcls
  interval_cases cls
  · -- class 0x0: CLS crashes, RET and SYS execute; decode_0xxx is never UNKNOWN
    constructor
    · intro s' h
      norm_num [OpCode.decode]
      unfold OpCode.decode_0xxx
      split
      · decide
      · split
        · decide
        · exact isU_false_head _ 'S' rfl (by decide)
    · intro u h
      norm_num [Cpu.execute] at h
      unfold Cpu.execute_0xxx at h
      split at h
      · unfold Cpu.clear_display at h; cases h
      · split at h
        · exact absurd h (ret_ne_unknownOp s u)
        · unfold Cpu.sys at h; cases h
  · -- class 0x1: JP
    constructor
    · intro s' h
      norm_num [OpCode.decode]
      unfold OpCode.decode_nnn
      norm_num
      exact isU_false_head _ 'J' rfl (by decide)
    · intro u h
      norm_num [Cpu.execute, Cpu.execute_0nnn] at h
      unfold Cpu.jump at h
      cases h
  · -- class 0x2: CALL
    constructor
    · intro s' h
      norm_num [OpCode.decode]
      unfold OpCode.decode_nnn
      norm_num
      exact isU_false_head _ 'C' rfl (by decide)
    · intro u h
      norm_num [Cpu.execute, Cpu.execute_0nnn] at h
      exact absurd h (call_ne_unknownOp s addr u)
  · -- class 0x3: SE Vx, byte
    constructor
    · intro s' h
      norm_num [OpCode.decode]
      unfold OpCode.decode_xkk
      norm_num
      exact isU_false_head _ 'S' rfl (by decide)
    · intro u h
      norm_num [Cpu.execute, Cpu.execute_xkk] at h
      exact absurd h (skip_eq_ne_unknownOp s rx kk u)
  · -- class 0x4: SNE Vx, byte
    constructor
    · intro s' h
      norm_num [OpCode.decode]
      unfold OpCode.decode_xkk
      norm_num
      exact isU_false_head _ 'S' rfl (by decide)
    · intro u h
      norm_num [Cpu.execute, Cpu.execute_xkk] at h
      exact absurd h (skip_ne_ne_unknownOp s rx kk u)
  · -- class 0x5: unimplemented crash on both sides of the claim
    constructor
    · intro s' h
      norm_num [Cpu.execute] at h
      cases h
    · intro u h
      norm_num [Cpu.execute] at h
      cases h
  · -- class 0x6: LD Vx, byte
    constructor
    · intro s' h
      norm_num [OpCode.decode]
      unfold OpCode.decode_xkk
      norm_num
      exact isU_false_head _ 'L' rfl (by decide)
    · intro u h
      norm_num [Cpu.execute, Cpu.execute_xkk] at h
      exact absurd h (set_reg_byte_ne_unknownOp s rx kk u)
  · -- class 0x7: ADD Vx, byte
    constructor
    · intro s' h
      norm_num [OpCode.decode]
      unfold OpCode.decode_xkk
      norm_num
      exact isU_false_head _ 'A' rfl (by decide)
    · intro u h
      norm_num [Cpu.execute, Cpu.execute_xkk] at h
      exact absurd h (add_reg_byte_ne_unknownOp s rx kk u)
  · -- class 0x8: unimplemented crash
    constructor
    · intro s' h
      norm_num [Cpu.execute] at h
      cases h
    · intro u h
      norm_num [Cpu.execute] at h
      cases h
  · -- class 0x9: unimplemented crash
    constructor
    · intro s' h
      norm_num [Cpu.execute] at h
      cases h
    · intro u h
      norm_num [Cpu.execute] at h
      cases h
  · -- class 0xA: LD I, addr
    constructor
    · intro s' h
      norm_num [OpCode.decode]
      unfold OpCode.decode_nnn
      norm_num
      exact isU_false_head _ 'L' rfl (by decide)
    · intro u h
      norm_num [Cpu.execute, Cpu.execute_0nnn] at h
      unfold Cpu.set_reg_i at h
      cases h
  · -- class 0xB: JP V0, addr
    constructor
    · intro s' h
      norm_num [OpCode.decode]
      unfold OpCode.decode_nnn
      norm_num
      exact isU_false_head _ 'J' rfl (by decide)
    · intro u h
      norm_num [Cpu.execute, Cpu.execute_0nnn] at h
      exact absurd h (jump_by_offset_ne_unknownOp s addr u)
  · -- class 0xC: RND Vx, byte
    constructor
    · intro s' h
      norm_num [OpCode.decode]
      unfold OpCode.decode_xkk
      norm_num
      exact isU_false_head _ 'R' rfl (by decide)
    · intro u h
      norm_num [Cpu.execute, Cpu.execute_xkk] at h
      exact absurd h (rnd_ne_unknownOp s rx kk r u)
  · -- class 0xD: unimplemented crash
    constructor
    · intro s' h
      norm_num [Cpu.execute] at h
      cases h
    · intro u h
      norm_num [Cpu.execute] at h
      cases h
  · -- class 0xE: key skips crash, anything else is the unknown-opcode exit
    constructor
    · intro s' h
      norm_num [Cpu.execute] at h
      unfold Cpu.execute_ex at h
      split at h
      · unfold Cpu.skip_if_key_pressed at h; cases h
      · split at h
        · unfold Cpu.skip_if_key_not_pressed at h; cases h
        · cases h
    · intro u h
      norm_num [Cpu.execute] at h
      unfold Cpu.execute_ex at h
      norm_num [OpCode.decode]
      unfold OpCode.decode_ex
      split at h
      · unfold Cpu.skip_if_key_pressed at h; cases h
      · split at h
        · unfold Cpu.skip_if_key_not_pressed at h; cases h
        · rw [if_neg (by assumption), if_neg (by assumption)]
          exact isUnknownStr_unknown _
  · -- class 0xF: unimplemented crash
    constructor
    · intro s' h
      norm_num [Cpu.execute] at h
      cases h
    · intro u h
      norm_num [Cpu.execute] at h
      cases h

/-- C2 (amended): the agreement between the disassembler and the
dispatcher holds in one direction only — every word the dispatcher
executes (routes to a handler that completes) has a non-"UNKNOWN"
mnemonic, and every word the dispatcher rejects through the
unknown-opcode exit renders as an explicit "UNKNOWN: ..." mnemonic,
never a crash or blank string; but a non-"UNKNOWN" mnemonic does *not*
imply the dispatcher accepts the word, because the words whose mnemonics
are CLS, SE/LD/OR/XOR/... Vx,Vy, DRW, SKP, SKNP and the Fx loads abort
in `unimplemented!()` placeholders (see the counterexample). -/
theorem dispatch_decode_agreement (s : Cpu) (w r : Nat) :
    (∀ s', Cpu.execute s (OpCode.new w) r = .ok s' →
      isUnknownStr (OpCode.new w).decode = false) ∧
    (∀ u, Cpu.execute s (OpCode.new w) r = .unknownOp u →
      isUnknownStr (OpCode.new w).decode = true) :=
  dispatch_decode_agreement_op s (OpCode.new w) r (OpCode.new_cls_lt w)

/-- Witness for C2: 0x6005 (`LD V0, 0x05`) executes and disassembles to a
non-UNKNOWN mnemonic; 0xE1AA exits through the unknown-opcode handler and
disassembles to an UNKNOWN mnemonic. -/
theorem dispatch_decode_agreement_witness :
    isUnknownStr (OpCode.new 0x6005).decode = false ∧
    isUnknownStr (OpCode.new 0xE1AA).decode = true :=
  ⟨(dispatch_decode_agreement Cpu.new 0x6005 0).1 _ rfl,
    (dispatch_decode_agreement Cpu.new 0xE1AA 0).2 0xE1AA rfl⟩

/-- Counterexample for C2 as stated: the word 0x00E0 disassembles to the
non-UNKNOWN mnemonic "CLS", yet the dispatcher does not execute it — the
`clear_display` handler is an `unimplemented!()` placeholder that aborts
the process — so "non-UNKNOWN iff dispatched without aborting" fails. -/
theorem cls_decodes_but_crashes :
    isUnknownStr (OpCode.new 0x00E0).decode = false ∧
    (OpCode.new 0x00E0).decode = "CLS" ∧
    Cpu.execute Cpu.new (OpCode.new 0x00E0) 0 = .crash :=
  ⟨rfl, rfl, rfl⟩

end Chip8
